import Mathlib

/-!
Verification development for the OpenCV Zoo text-detection demo
(`models/text_detection_db/demo.py`).

The script is glue code around a black-box detector: it parses CLI flags,
loads an image or opens a camera stream, resizes the frame to the model's
input size, runs inference, rescales the detected quadrilateral boxes back
to the original frame's coordinate space, draws them, and saves or shows
the result.

Modelling choices:
* Pixel coordinates and scores are rationals (Python floats are modelled
  by exact arithmetic, as the spec allows floating-point tolerance).
* A `Frame` carries its dimensions, raw pixel data, and the list of
  drawing operations applied to it; the external drawing primitives
  `cv.putText` and `cv.polylines` are modelled as appending a `DrawOp`
  record of their arguments.
* Side effects of the runner (prints, `cv.imwrite`, `cv.imshow`, detector
  invocations) are modelled as an event trace.
* NumPy in-place mutation and `image.copy()` are modelled by a heap of
  frames (`List Frame`) with explicit cell updates, so that the claim that
  `visualize` does not mutate its argument is a real statement about
  aliasing, not a triviality of value semantics.
* The camera is a list of `Option Frame` reads; `cv.waitKey` ending the
  loop is modelled as the end of that list.  The tick-meter FPS value of
  iteration `i` is an oracle `Env.fps i`, since wall-clock timing is
  outside the embedding.
-/

namespace TextDetectionDemo

/-- Python truth values of demo.py's str2bool (demo.py lines 14-20):
the lowercased strings accepted as True. -/
def trueWords : List String := ["on", "yes", "true", "y", "t"]

/-- The lowercased strings accepted as False by str2bool. -/
def falseWords : List String := ["off", "no", "false", "n", "f"]

/-- Embedding of `str2bool` (demo.py lines 14-20).  The Python function
raises `NotImplementedError` on unrecognized input; this is modelled as
`Except.error ()`. -/
def str2bool (v : String) : Except Unit Bool :=
  if v.toLower ∈ trueWords then Except.ok true
  else if v.toLower ∈ falseWords then Except.ok false
  else Except.error ()

/-- The parsed value of the `--save` flag (demo.py line 47).  argparse is
given `type=str, default=False`, so the value is either the Python bool
`False` (flag omitted) or the raw string supplied on the command line. -/
inductive SaveArg where
  | pyFalse : SaveArg
  | str : String → SaveArg
  deriving DecidableEq

/-- Python truthiness of the `--save` value, as tested by
`if args.save:` (demo.py line 102): `False` is falsy, a string is truthy
iff it is non-empty. -/
def pyTruthy : SaveArg → Bool
  | SaveArg.pyFalse => false
  | SaveArg.str s => !(s == "")

/-- An RGB color triple, as the Python tuples `(0, 255, 0)` etc. -/
abbrev Color := Nat × Nat × Nat

/-- One detected text region: 4 ordered corner points, each an (x, y)
pair of rational coordinates.  Produced by the black-box detector; the
rescale loop (demo.py lines 87-91) iterates `for j in range(4)` over
exactly these four points. -/
structure DetectionBox where
  p0 : ℚ × ℚ
  p1 : ℚ × ℚ
  p2 : ℚ × ℚ
  p3 : ℚ × ℚ
  deriving DecidableEq

/-- A drawing operation recorded on a frame: `cv.putText` and
`cv.polylines` are external library calls, modelled by recording their
arguments. -/
inductive DrawOp where
  | text : String → Nat × Nat → Nat → ℚ → Color → DrawOp
  | polylines : List DetectionBox → Bool → Color → Nat → DrawOp
  deriving DecidableEq

/-- A raster frame: dimensions, pixel data (row-major), and the drawing
operations applied so far. -/
structure Frame where
  width : Nat
  height : Nat
  pixels : List Nat
  ops : List DrawOp
  deriving DecidableEq

/-- Placeholder frame used as the out-of-range default of heap lookups. -/
def defaultFrame : Frame := { width := 0, height := 0, pixels := [], ops := [] }

/-- Model of `cv.putText(f, s, pos, fontFace, fontScale, color)`:
records the call on the frame. -/
def putText (f : Frame) (s : String) (pos : Nat × Nat) (fontFace : Nat)
    (fontScale : ℚ) (color : Color) : Frame :=
  { f with ops := f.ops ++ [DrawOp.text s pos fontFace fontScale color] }

/-- Model of `cv.polylines(f, pts, isClosed, color, thickness)`: records
the call on the frame.  The demo passes the whole array of boxes as `pts`
(demo.py line 58). -/
def polylines (f : Frame) (pts : List DetectionBox) (isClosed : Bool)
    (color : Color) (thickness : Nat) : Frame :=
  { f with ops := f.ops ++ [DrawOp.polylines pts isClosed color thickness] }

/-- Model of Python's `'FPS: {:.2f}'.format(fps)` (demo.py line 55):
fixed two-decimal rendering of the FPS value (ties round up; the demo
never formats an exact tie, so the tie rule is immaterial to the claims). -/
def fpsString (fps : ℚ) : String :=
  let n : ℤ := ⌊fps * 100 + 1 / 2⌋
  let ip : ℤ := n / 100
  let fr : ℕ := (n % 100).toNat
  "FPS: " ++ toString ip ++ "." ++ (if fr < 10 then "0" else "") ++ toString fr

/-- Default `box_color=(0, 255, 0)` of `visualize` (demo.py line 51). -/
def boxColorDefault : Color := (0, 255, 0)

/-- Default `text_color=(0, 0, 255)` of `visualize` (demo.py line 51). -/
def textColorDefault : Color := (0, 0, 255)

/-- Value-level embedding of `visualize` (demo.py lines 51-60): copy the
image, draw the FPS text when an fps value is given, draw all boxes as
polylines, return the new image.  `results` is the detector tuple
(boxes, scores); only `results[0]` is drawn. -/
def visualize (image : Frame) (results : List DetectionBox × List ℚ)
    (box_color : Color) (text_color : Color) (isClosed : Bool)
    (thickness : Nat) (fps : Option ℚ) : Frame :=
  let output := image
  let output := match fps with
    | some f => putText output (fpsString f) (0, 15) 0 (1 / 2) text_color
    | none => output
  let pts := results.1
  let output := polylines output pts isClosed box_color thickness
  output

/-- Heap allocation model of `image.copy()`: a heap is a list of frame
cells; copying cell `i` appends a fresh cell with the same contents and
returns the new cell's address. -/
def copyAt (h : List Frame) (i : Nat) : List Frame × Nat :=
  (h ++ [h.getD i defaultFrame], h.length)

/-- In-place `cv.putText` on heap cell `i`. -/
def putTextAt (h : List Frame) (i : Nat) (s : String) (pos : Nat × Nat)
    (fontFace : Nat) (fontScale : ℚ) (color : Color) : List Frame :=
  h.set i (putText (h.getD i defaultFrame) s pos fontFace fontScale color)

/-- In-place `cv.polylines` on heap cell `i`; like the OpenCV call it
returns (the address of) the array it mutated. -/
def polylinesAt (h : List Frame) (i : Nat) (pts : List DetectionBox)
    (isClosed : Bool) (color : Color) (thickness : Nat) : List Frame × Nat :=
  (h.set i (polylines (h.getD i defaultFrame) pts isClosed color thickness), i)

/-- Heap-level embedding of `visualize` (demo.py lines 51-60), making the
`image.copy()` at line 52 and the in-place drawing explicit: takes the
heap and the address of the input image, returns the updated heap and the
address of the output image. -/
def visualizeH (h : List Frame) (imageIdx : Nat)
    (results : List DetectionBox × List ℚ) (box_color : Color)
    (text_color : Color) (isClosed : Bool) (thickness : Nat)
    (fps : Option ℚ) : List Frame × Nat :=
  let step1 := copyAt h imageIdx
  let h1 := step1.1
  let out := step1.2
  let h2 := match fps with
    | some f => putTextAt h1 out (fpsString f) (0, 15) 0 (1 / 2) text_color
    | none => h1
  let step3 := polylinesAt h2 out results.1 isClosed box_color thickness
  (step3.1, step3.2)

/-- Embedding of the rescale loop body (demo.py lines 87-91 and 133-137):
each of the box's 4 corner points has its x multiplied by `scaleWidth`
and its y multiplied by `scaleHeight`. -/
def rescaleBox (scaleWidth scaleHeight : ℚ) (b : DetectionBox) : DetectionBox :=
  { p0 := (b.p0.1 * scaleWidth, b.p0.2 * scaleHeight)
    p1 := (b.p1.1 * scaleWidth, b.p1.2 * scaleHeight)
    p2 := (b.p2.1 * scaleWidth, b.p2.2 * scaleHeight)
    p3 := (b.p3.1 * scaleWidth, b.p3.2 * scaleHeight) }

/-- The rescale loop over the whole detector result tuple: every box in
`results[0]` is rescaled in order; the scores `results[1]` are not
touched by the loop. -/
def rescaleResults (r : List DetectionBox × List ℚ)
    (scaleWidth scaleHeight : ℚ) : List DetectionBox × List ℚ :=
  (r.1.map (rescaleBox scaleWidth scaleHeight), r.2)

/-- CLI arguments of the demo that the modelled control flow reads:
`--input` (None means camera mode), `--width`, `--height`, `--save`,
`--vis`. -/
structure Args where
  input : Option String
  width : Nat
  height : Nat
  save : SaveArg
  vis : Bool
  deriving DecidableEq

/-- The external collaborators of the runner, treated as black boxes per
the spec: the detector's `infer`, `cv.resize`, the tick-meter FPS reading
of stream iteration `i`, and the model's display name (`model.name`). -/
structure Env where
  infer : Frame → List DetectionBox × List ℚ
  resize : Frame → Nat → Nat → Frame
  fps : Nat → ℚ
  modelName : String

/-- An observable action of the runner, in program order. -/
inductive Event where
  | log : String → Event
  | inferCall : Frame → Event
  | printResult : Nat → DetectionBox → ℚ → Event
  | imwrite : String → Frame → Event
  | imshow : String → Frame → Event

/-- Embedding of the image-mode branch (demo.py lines 76-109): compute
scale factors from the original frame and the configured model size,
resize, infer, rescale, print the results (the per-box print iterates
`enumerate(zip(results[0], results[1]))`, modelled as structured
events), render with no FPS, optionally save to `result.jpg`, optionally
show a window named after the input path. -/
def imageRun (env : Env) (args : Args) (path : String)
    (original_image : Frame) : List Event :=
  let original_w := original_image.width
  let original_h := original_image.height
  let scaleHeight : ℚ := (original_h : ℚ) / (args.height : ℚ)
  let scaleWidth : ℚ := (original_w : ℚ) / (args.width : ℚ)
  let image := env.resize original_image args.width args.height
  let results0 := env.infer image
  let results := rescaleResults results0 scaleWidth scaleHeight
  let countEvent := Event.log (toString results.1.length ++ " texts detected.")
  let printEvents := (results.1.zip results.2).enum.map
    (fun p => Event.printResult p.1 p.2.1 p.2.2)
  let rendered := visualize original_image results boxColorDefault
    textColorDefault true 2 none
  let saveEvents := if pyTruthy args.save then
      [Event.log "Resutls saved to result.jpg\n",
       Event.imwrite "result.jpg" rendered]
    else []
  let visEvents := if args.vis then [Event.imshow path rendered] else []
  countEvent :: (printEvents ++ saveEvents ++ visEvents)

/-- One successful iteration of the stream loop (demo.py lines 116-145,
frame acquired): recompute the scale factors from the current frame's
dimensions, resize, infer (timed), rescale, render with the live FPS,
show in the persistent window named after the model. -/
def streamStep (env : Env) (args : Args) (i : Nat)
    (original_image : Frame) : List Event :=
  let original_w := original_image.width
  let original_h := original_image.height
  let scaleHeight : ℚ := (original_h : ℚ) / (args.height : ℚ)
  let scaleWidth : ℚ := (original_w : ℚ) / (args.width : ℚ)
  let frame := env.resize original_image args.width args.height
  let results0 := env.infer frame
  let results := rescaleResults results0 scaleWidth scaleHeight
  let rendered := visualize original_image results boxColorDefault
    textColorDefault true 2 (some (env.fps i))
  [Event.inferCall frame, Event.imshow (env.modelName ++ " Demo") rendered]

/-- The stream loop (demo.py lines 115-145), indexed by the iteration
counter.  `reads` is the sequence of `cap.read()` outcomes; the list
ending models `cv.waitKey(1)` reporting a key press before the next
read.  A failed read logs `No frames grabbed!` and breaks. -/
def streamLoopAux (env : Env) (args : Args) : Nat → List (Option Frame) → List Event
  | _, [] => []
  | _, Option.none :: _ => [Event.log "No frames grabbed!"]
  | i, Option.some img :: rest =>
      streamStep env args i img ++ streamLoopAux env args (i + 1) rest

/-- The stream-mode branch: the loop started at iteration 0. -/
def streamLoop (env : Env) (args : Args) (reads : List (Option Frame)) : List Event :=
  streamLoopAux env args 0 reads

/-- Top-level dispatch (demo.py line 76): image mode when `--input` is
given, stream mode otherwise.  `loadImage` stands for `cv.imread`. -/
def runMain (env : Env) (args : Args) (loadImage : String → Frame)
    (reads : List (Option Frame)) : List Event :=
  match args.input with
  | some path => imageRun env args path (loadImage path)
  | none => streamLoop env args reads

/-- Events contributed by a run of successfully acquired frames starting
at iteration `i`; used to describe the prefix of the stream trace before
an acquisition failure. -/
def stepsEvents (env : Env) (args : Args) : Nat → List Frame → List Event
  | _, [] => []
  | i, img :: rest => streamStep env args i img ++ stepsEvents env args (i + 1) rest

/-- A concrete frame used to instantiate the universally quantified
theorems below. -/
def sampleFrame : Frame := { width := 1472, height := 736, pixels := [7], ops := [] }

/-- A concrete detection box. -/
def sampleBox : DetectionBox :=
  { p0 := (100, 100), p1 := (200, 100), p2 := (200, 200), p3 := (100, 200) }

/-- A concrete environment: a stub detector returning one box with score
9/10, a resize that only changes the recorded dimensions, a constant FPS
meter, and the DB model name. -/
def sampleEnv : Env :=
  { infer := fun _ => ([sampleBox], [9 / 10])
    resize := fun f w h => { f with width := w, height := h }
    fps := fun _ => 30
    modelName := "DB" }

/-- Concrete arguments: image mode, model size 736 square, save enabled
with the literal string True, visualization on. -/
def sampleArgs : Args :=
  { input := some "sample.jpg", width := 736, height := 736,
    save := SaveArg.str "True", vis := true }

lemma rescaleBox_one (b : DetectionBox) : rescaleBox 1 1 b = b := by
  cases b
  simp [rescaleBox]

lemma mem_trueWords_not_falseWords (s : String) (ht : s ∈ trueWords) :
    s ∉ falseWords := by
  intro hf
  simp only [trueWords, List.mem_cons, List.not_mem_nil, or_false] at ht
  rcases ht with h | h | h | h | h <;> rw [h] at hf <;> exact absurd hf (by decide)

/-- CLAIM C1: for every box sequence and scale factors `(sw, sh) > 0`, the
rescale loop multiplies each corner point's x by `sw` and its y by `sh`
exactly, with no other transformation; coordinates outside the model-input
range are scaled the same way (the statement quantifies over all rational
coordinates, so no clamping or uniform scaling occurs). -/
theorem rescale_scales_each_corner (boxes : List DetectionBox)
    (scores : List ℚ) (sw sh : ℚ) (_hsw : 0 < sw) (_hsh : 0 < sh) (i : Nat) :
    (rescaleResults (boxes, scores) sw sh).1[i]? =
      boxes[i]?.map (fun b => DetectionBox.mk
        (b.p0.1 * sw, b.p0.2 * sh) (b.p1.1 * sw, b.p1.2 * sh)
        (b.p2.1 * sw, b.p2.2 * sh) (b.p3.1 * sw, b.p3.2 * sh)) := by
  simp only [rescaleResults, List.getElem?_map]
  rfl

/-- Witness for C1 at a concrete box list and scale factors (2, 2). -/
theorem rescale_scales_each_corner_witness :
    0 < (2 : ℚ) ∧
    (rescaleResults ([sampleBox], [9 / 10]) 2 2).1[0]? =
      ([sampleBox] : List DetectionBox)[0]?.map (fun b => DetectionBox.mk
        (b.p0.1 * 2, b.p0.2 * 2) (b.p1.1 * 2, b.p1.2 * 2)
        (b.p2.1 * 2, b.p2.2 * 2) (b.p3.1 * 2, b.p3.2 * 2)) :=
  ⟨by norm_num,
   rescale_scales_each_corner [sampleBox] [9 / 10] 2 2 (by norm_num) (by norm_num) 0⟩

/-- CLAIM C3: rescaling preserves sequence length and index
correspondence (the box at index i of the output is the rescaled box at
index i of the input), and the parallel scores sequence is untouched, so
the external pairing by index (the `zip` at demo.py line 96) pairs the
rescaled box at index i with the original score at index i. -/
theorem rescale_preserves_length_and_scores (boxes : List DetectionBox)
    (scores : List ℚ) (sw sh : ℚ) :
    (rescaleResults (boxes, scores) sw sh).1.length = boxes.length ∧
    (rescaleResults (boxes, scores) sw sh).2 = scores ∧
    (∀ i : Nat, (rescaleResults (boxes, scores) sw sh).1[i]? =
      boxes[i]?.map (rescaleBox sw sh)) ∧
    ((rescaleResults (boxes, scores) sw sh).1.zip scores =
      (boxes.zip scores).map (fun p => (rescaleBox sw sh p.1, p.2))) := by
  refine ⟨by simp [rescaleResults], rfl, fun i => by simp [rescaleResults], ?_⟩
  simp only [rescaleResults, List.zip_map_left]
  rfl

/-- CLAIM C8: rescaling with scale factors (1, 1) is the identity
transform on the whole result tuple. -/
theorem rescale_one_one_identity (boxes : List DetectionBox) (scores : List ℚ) :
    rescaleResults (boxes, scores) 1 1 = (boxes, scores) := by
  have h : boxes.map (rescaleBox 1 1) = boxes := by
    induction boxes with
    | nil => rfl
    | cons b bs ih => simp [rescaleBox_one, ih]
  simp [rescaleResults, h]

/-- CLAIM C10: `str2bool` returns True iff the lowercased input is one of
on/yes/true/y/t, returns False iff it is one of off/no/false/n/f, and
raises (modelled as `Except.error ()`) for every other string, so the
flag is case-insensitive and unrecognized values are rejected at parse
time. -/
theorem str2bool_characterization (v : String) :
    (str2bool v = Except.ok true ↔ v.toLower ∈ trueWords) ∧
    (str2bool v = Except.ok false ↔ v.toLower ∈ falseWords) ∧
    (str2bool v = Except.error () ↔
      v.toLower ∉ trueWords ∧ v.toLower ∉ falseWords) := by
  unfold str2bool
  split_ifs with h1 h2
  · exact ⟨by simp [h1], by simp [mem_trueWords_not_falseWords _ h1], by simp [h1]⟩
  · exact ⟨by simp [h1], by simp [h2], by simp [h2]⟩
  · exact ⟨by simp [h1], by simp [h2], by simp [h1, h2]⟩

lemma streamLoopAux_failed_read (env : Env) (args : Args) (i : Nat)
    (pre : List Frame) (rest : List (Option Frame)) :
    streamLoopAux env args i (pre.map Option.some ++ Option.none :: rest) =
      stepsEvents env args i pre ++ [Event.log "No frames grabbed!"] := by
  induction pre generalizing i with
  | nil => simp [streamLoopAux, stepsEvents]
  | cons a l ih => simp [streamLoopAux, stepsEvents, ih]

/-- CLAIM C4: in stream mode, if frame acquisition fails at any iteration
(including the first, `pre = []`), the loop logs `No frames grabbed!` and
terminates immediately: the trace is exactly the events of the previously
acquired frames followed by the log, so the detector is not invoked on
the failing iteration and no later read is attempted. -/
theorem stream_terminates_on_failed_read (env : Env) (args : Args) (i : Nat)
    (pre : List Frame) (rest : List (Option Frame)) :
    streamLoopAux env args i (pre.map Option.some ++ Option.none :: rest) =
      stepsEvents env args i pre ++ [Event.log "No frames grabbed!"] ∧
    (∀ f : Frame,
      Event.inferCall f ∈
        streamLoopAux env args i (pre.map Option.some ++ Option.none :: rest) →
      Event.inferCall f ∈ stepsEvents env args i pre) := by
  refine ⟨streamLoopAux_failed_read env args i pre rest, fun f hf => ?_⟩
  rw [streamLoopAux_failed_read env args i pre rest] at hf
  rcases List.mem_append.mp hf with h | h
  · exact h
  · simp at h

/-- Witness for C4 at a one-frame prefix followed by a failed read. -/
theorem stream_terminates_on_failed_read_witness :
    Event.inferCall (sampleEnv.resize sampleFrame 736 736) ∈
      stepsEvents sampleEnv sampleArgs 0 [sampleFrame] :=
  (stream_terminates_on_failed_read sampleEnv sampleArgs 0 [sampleFrame] []).2
    (sampleEnv.resize sampleFrame 736 736)
    (by simp [streamLoopAux, streamStep, sampleArgs])

/-- CLAIM C6: the scale factors are `originalWidth / modelWidth` and
`originalHeight / modelHeight`, positive for non-degenerate inputs; the
stream loop applies `streamStep` to the current frame of each iteration,
and both `streamStep` and the image-mode run rescale with the factors
computed from that frame's own dimensions. -/
theorem scale_factors_from_frame_dimensions (env : Env) (args : Args)
    (i : Nat) (f : Frame) (rest : List (Option Frame)) (path : String)
    (hw : 0 < f.width) (hh : 0 < f.height)
    (haw : 0 < args.width) (hah : 0 < args.height) :
    0 < (f.width : ℚ) / (args.width : ℚ) ∧
    0 < (f.height : ℚ) / (args.height : ℚ) ∧
    streamLoopAux env args i (Option.some f :: rest) =
      streamStep env args i f ++ streamLoopAux env args (i + 1) rest ∧
    streamStep env args i f =
      [Event.inferCall (env.resize f args.width args.height),
       Event.imshow (env.modelName ++ " Demo")
         (visualize f
           (rescaleResults (env.infer (env.resize f args.width args.height))
             ((f.width : ℚ) / (args.width : ℚ))
             ((f.height : ℚ) / (args.height : ℚ)))
           boxColorDefault textColorDefault true 2 (some (env.fps i)))] ∧
    imageRun env args path f =
      Event.log (toString
          (rescaleResults (env.infer (env.resize f args.width args.height))
            ((f.width : ℚ) / (args.width : ℚ))
            ((f.height : ℚ) / (args.height : ℚ))).1.length
          ++ " texts detected.") ::
        (((rescaleResults (env.infer (env.resize f args.width args.height))
              ((f.width : ℚ) / (args.width : ℚ))
              ((f.height : ℚ) / (args.height : ℚ))).1.zip
            (rescaleResults (env.infer (env.resize f args.width args.height))
              ((f.width : ℚ) / (args.width : ℚ))
              ((f.height : ℚ) / (args.height : ℚ))).2).enum.map
            (fun p => Event.printResult p.1 p.2.1 p.2.2) ++
          (if pyTruthy args.save then
            [Event.log "Resutls saved to result.jpg\n",
             Event.imwrite "result.jpg"
               (visualize f
                 (rescaleResults (env.infer (env.resize f args.width args.height))
                   ((f.width : ℚ) / (args.width : ℚ))
                   ((f.height : ℚ) / (args.height : ℚ)))
                 boxColorDefault textColorDefault true 2 none)]
          else []) ++
          (if args.vis then
            [Event.imshow path
              (visualize f
                (rescaleResults (env.infer (env.resize f args.width args.height))
                  ((f.width : ℚ) / (args.width : ℚ))
                  ((f.height : ℚ) / (args.height : ℚ)))
                boxColorDefault textColorDefault true 2 none)]
          else [])) := by
  refine ⟨?_, ?_, rfl, rfl, rfl⟩
  · exact div_pos (by exact_mod_cast hw) (by exact_mod_cast haw)
  · exact div_pos (by exact_mod_cast hh) (by exact_mod_cast hah)

/-- Witness for C6: positivity of the concrete scale factor 1472 / 736. -/
theorem scale_factors_from_frame_dimensions_witness :
    0 < (sampleFrame.width : ℚ) / (sampleArgs.width : ℚ) :=
  (scale_factors_from_frame_dimensions sampleEnv sampleArgs 0 sampleFrame []
    "sample.jpg" (by norm_num [sampleFrame]) (by norm_num [sampleFrame])
    (by norm_num [sampleArgs]) (by norm_num [sampleArgs])).1

lemma imageRun_imwrite_mem (env : Env) (args : Args) (path : String)
    (img : Frame) (n : String) (f : Frame)
    (h : Event.imwrite n f ∈ imageRun env args path img) :
    n = "result.jpg" ∧ pyTruthy args.save = true := by
  by_cases hs : pyTruthy args.save
  · simp [imageRun, hs] at h
    exact ⟨h.1, hs⟩
  · simp [imageRun, hs] at h

lemma imageRun_imwrite_of_save (env : Env) (args : Args) (path : String)
    (img : Frame) (hs : pyTruthy args.save = true) :
    Event.imwrite "result.jpg"
      (visualize img
        (rescaleResults (env.infer (env.resize img args.width args.height))
          ((img.width : ℚ) / (args.width : ℚ))
          ((img.height : ℚ) / (args.height : ℚ)))
        boxColorDefault textColorDefault true 2 none) ∈
      imageRun env args path img := by
  simp [imageRun, hs]

lemma streamLoopAux_no_imwrite (env : Env) (args : Args) (i : Nat)
    (reads : List (Option Frame)) (n : String) (f : Frame) :
    Event.imwrite n f ∉ streamLoopAux env args i reads := by
  induction reads generalizing i with
  | nil => simp [streamLoopAux]
  | cons r rest ih =>
    cases r with
    | none => simp [streamLoopAux]
    | some img =>
      simp only [streamLoopAux, List.mem_append]
      rintro (h | h)
      · simp [streamStep] at h
      · exact ih (i + 1) h

/-- CLAIM C5: the save flag takes effect only in image mode: every file
write of the image-mode run is to the fixed name `result.jpg` and occurs
only when the save flag is truthy; when it is truthy the rendered frame
is written; and in stream mode (and hence in a camera-mode `runMain`)
no file is ever written, whatever the save flag. -/
theorem save_only_in_image_mode :
    (∀ (env : Env) (args : Args) (path : String) (img : Frame)
        (n : String) (f : Frame),
      Event.imwrite n f ∈ imageRun env args path img →
        n = "result.jpg" ∧ pyTruthy args.save = true) ∧
    (∀ (env : Env) (args : Args) (path : String) (img : Frame),
      pyTruthy args.save = true →
        Event.imwrite "result.jpg"
          (visualize img
            (rescaleResults (env.infer (env.resize img args.width args.height))
              ((img.width : ℚ) / (args.width : ℚ))
              ((img.height : ℚ) / (args.height : ℚ)))
            boxColorDefault textColorDefault true 2 none) ∈
          imageRun env args path img) ∧
    (∀ (env : Env) (args : Args) (i : Nat) (reads : List (Option Frame))
        (n : String) (f : Frame),
      Event.imwrite n f ∉ streamLoopAux env args i reads) ∧
    (∀ (env : Env) (args : Args) (loadImage : String → Frame)
        (reads : List (Option Frame)) (n : String) (f : Frame),
      args.input = none → Event.imwrite n f ∉ runMain env args loadImage reads) := by
  refine ⟨imageRun_imwrite_mem, imageRun_imwrite_of_save,
    streamLoopAux_no_imwrite, ?_⟩
  intro env args loadImage reads n f hin
  simp only [runMain, hin]
  exact streamLoopAux_no_imwrite env args 0 reads n f

/-- Witness for C5: with the save flag set to the string True, the
image-mode run writes the rendered frame to result.jpg. -/
theorem save_only_in_image_mode_witness :
    Event.imwrite "result.jpg"
      (visualize sampleFrame
        (rescaleResults
          (sampleEnv.infer
            (sampleEnv.resize sampleFrame sampleArgs.width sampleArgs.height))
          ((sampleFrame.width : ℚ) / (sampleArgs.width : ℚ))
          ((sampleFrame.height : ℚ) / (sampleArgs.height : ℚ)))
        boxColorDefault textColorDefault true 2 none) ∈
      imageRun sampleEnv sampleArgs "sample.jpg" sampleFrame :=
  save_only_in_image_mode.2.1 sampleEnv sampleArgs "sample.jpg" sampleFrame
    (by decide)

/-- CLAIM C9: because `--save` is parsed as a raw string with Python
default `False`, the flag's value is falsy only when the flag is omitted
(the Python bool `False`) or given the empty string; any non-empty
string — including the strings False, no and 0 — is truthy and makes the
image-mode save branch execute. -/
theorem save_flag_string_truthiness :
    pyTruthy SaveArg.pyFalse = false ∧
    (∀ s : String, s ≠ "" → pyTruthy (SaveArg.str s) = true) ∧
    pyTruthy (SaveArg.str "") = false ∧
    pyTruthy (SaveArg.str "False") = true ∧
    pyTruthy (SaveArg.str "no") = true ∧
    pyTruthy (SaveArg.str "0") = true ∧
    (∀ (env : Env) (args : Args) (path : String) (img : Frame),
      (∃ f : Frame, Event.imwrite "result.jpg" f ∈ imageRun env args path img)
        ↔ pyTruthy args.save = true) := by
  refine ⟨rfl, ?_, rfl, rfl, rfl, rfl, ?_⟩
  · intro s hs
    simp [pyTruthy, hs]
  · intro env args path img
    constructor
    · rintro ⟨f, hf⟩
      exact (imageRun_imwrite_mem env args path img _ f hf).2
    · intro hs
      exact ⟨_, imageRun_imwrite_of_save env args path img hs⟩

/-- Witness for C9: the string False is truthy, so it enables saving. -/
theorem save_flag_string_truthiness_witness :
    pyTruthy (SaveArg.str "False") = true :=
  save_flag_string_truthiness.2.1 "False" (by decide)

lemma set_append_singleton {α : Type} (l : List α) (a b : α) :
    (l ++ [a]).set l.length b = l ++ [b] := by
  induction l with
  | nil => rfl
  | cons x xs ih => simp [List.set, ih]

lemma getD_append_self {α : Type} (l : List α) (a d : α) :
    (l ++ [a]).getD l.length d = a := by
  induction l with
  | nil => rfl
  | cons x xs ih => simp [ih]

lemma getD_append_lt {α : Type} (l : List α) (a d : α) (i : Nat)
    (hi : i < l.length) : (l ++ [a]).getD i d = l.getD i d := by
  induction l generalizing i with
  | nil => simp at hi
  | cons x xs ih =>
    cases i with
    | zero => rfl
    | succ n => simpa using ih n (by simpa using hi)

/-- CLAIM C2: in the heap model of `visualize`, where `image.copy()`
allocates a fresh cell and the drawing calls mutate a cell in place,
rendering leaves the input frame's cell (pixels, dimensions and drawn
ops) exactly as it was, and returns a distinct, freshly allocated cell
whose contents are the value-level `visualize` of the input. -/
theorem render_does_not_mutate_input (h : List Frame) (i : Nat)
    (results : List DetectionBox × List ℚ) (bc tc : Color) (closed : Bool)
    (th : Nat) (fps : Option ℚ) (hi : i < h.length) :
    (visualizeH h i results bc tc closed th fps).1.getD i defaultFrame =
      h.getD i defaultFrame ∧
    (visualizeH h i results bc tc closed th fps).2 ≠ i ∧
    (visualizeH h i results bc tc closed th fps).2 <
      (visualizeH h i results bc tc closed th fps).1.length ∧
    (visualizeH h i results bc tc closed th fps).1.getD
        (visualizeH h i results bc tc closed th fps).2 defaultFrame =
      visualize (h.getD i defaultFrame) results bc tc closed th fps := by
  cases fps with
  | none =>
    simp only [visualizeH, copyAt, putTextAt, polylinesAt, visualize]
    rw [getD_append_self, set_append_singleton]
    refine ⟨getD_append_lt h _ defaultFrame i hi, ?_, ?_, ?_⟩
    · omega
    · simp
    · rw [getD_append_self]
  | some q =>
    simp only [visualizeH, copyAt, putTextAt, polylinesAt, visualize]
    rw [getD_append_self, set_append_singleton, getD_append_self,
      set_append_singleton]
    refine ⟨getD_append_lt h _ defaultFrame i hi, ?_, ?_, ?_⟩
    · omega
    · simp
    · rw [getD_append_self]

/-- Witness for C2 at a one-cell heap holding the sample frame. -/
theorem render_does_not_mutate_input_witness :
    (visualizeH [sampleFrame] 0 ([sampleBox], [9 / 10]) boxColorDefault
        textColorDefault true 2 none).1.getD 0 defaultFrame =
      [sampleFrame].getD 0 defaultFrame :=
  (render_does_not_mutate_input [sampleFrame] 0 ([sampleBox], [9 / 10])
    boxColorDefault textColorDefault true 2 none (by decide)).1

/-- CLAIM C7: `visualize` appends the drawing of the text produced by
the two-decimal FPS format at fixed position (0, 15) in the text color
exactly when an fps value is supplied (the op list equation and the
iff), the image-mode run renders with `fps = none`, and the stream
iteration renders with the live `fps = some (env.fps i)`. -/
theorem fps_overlay_iff_supplied (img : Frame)
    (results : List DetectionBox × List ℚ) (bc tc : Color) (closed : Bool)
    (th : Nat) (fps : Option ℚ) (env : Env) (args : Args) (path : String)
    (i : Nat) (f : Frame) (hops : img.ops = []) (hvis : args.vis = true) :
    (visualize img results bc tc closed th fps).ops =
      img.ops ++
        fps.elim [] (fun q => [DrawOp.text (fpsString q) (0, 15) 0 (1 / 2) tc]) ++
        [DrawOp.polylines results.1 closed bc th] ∧
    ((∃ s p ff sc c, DrawOp.text s p ff sc c ∈
        (visualize img results bc tc closed th fps).ops) ↔
      fps.isSome = true) ∧
    Event.imshow path
        (visualize f
          (rescaleResults (env.infer (env.resize f args.width args.height))
            ((f.width : ℚ) / (args.width : ℚ))
            ((f.height : ℚ) / (args.height : ℚ)))
          boxColorDefault textColorDefault true 2 none) ∈
      imageRun env args path f ∧
    streamStep env args i f =
      [Event.inferCall (env.resize f args.width args.height),
       Event.imshow (env.modelName ++ " Demo")
         (visualize f
           (rescaleResults (env.infer (env.resize f args.width args.height))
             ((f.width : ℚ) / (args.width : ℚ))
             ((f.height : ℚ) / (args.height : ℚ)))
           boxColorDefault textColorDefault true 2 (some (env.fps i)))] := by
  refine ⟨?_, ?_, ?_, rfl⟩
  · cases fps <;> simp [visualize, putText, polylines]
  · cases fps with
    | none => simp [visualize, putText, polylines, hops]
    | some q =>
      simp only [Option.isSome_some, iff_true]
      exact ⟨fpsString q, (0, 15), 0, 1 / 2, tc,
        by simp [visualize, putText, polylines]⟩
  · simp [imageRun, hvis]

/-- Witness for C7: with fps supplied, the rendered frame carries a text
drawing op. -/
theorem fps_overlay_iff_supplied_witness :
    ((∃ s p ff sc c, DrawOp.text s p ff sc c ∈
        (visualize sampleFrame ([sampleBox], [9 / 10]) boxColorDefault
          textColorDefault true 2 (some 30)).ops) ↔
      (some (30 : ℚ)).isSome = true) :=
  (fps_overlay_iff_supplied sampleFrame ([sampleBox], [9 / 10])
    boxColorDefault textColorDefault true 2 (some 30) sampleEnv sampleArgs
    "sample.jpg" 0 sampleFrame rfl rfl).2.1

end TextDetectionDemo
